import Mathlib

/-
Verification of the authorization-filter pipeline in
src/CustomOperations/src/functions/CustomOperations.ts.

The embedding models the data the code actually reads:
- a field the code dereferences unconditionally (for example
  `device.patient.reference`, `practitionerRole.organization.reference`,
  `consent.provision.actor`) is a required field of the Lean structure;
- a field the code reads through optional chaining (`patient.managingOrganization?.`,
  `practitioner.identifier?.`) or whose possibly-undefined value flows into a
  JavaScript `===` comparison without being dereferenced (`identifier.value`,
  the decoded `oid` claim) is an `Option`;
- JavaScript `===` between such possibly-undefined values is `Option` equality
  (`undefined === undefined` is `true`, `undefined === s` is `false` for a string s);
- `String.prototype.endsWith` is modelled as a character-suffix test `jsEndsWith`.
-/

namespace CustomOperations

/-- JavaScript `s.endsWith(t)`: the characters of `t` are a suffix of the characters
of `s`. -/
def jsEndsWith (s t : String) : Bool :=
  t.data.isSuffixOf s.data

/-- A FHIR reference holder; the code only ever reads its `reference` string, always
unconditionally where a `Reference` object is present. -/
structure Reference where
  reference : String
deriving DecidableEq, Repr

/-- One coding inside a CodeableConcept; the consent evaluator reads `code`. -/
structure Coding where
  code : String
deriving DecidableEq, Repr

/-- The `role` of a consent actor: the code iterates `role.coding`. -/
structure CodeableConcept where
  coding : List Coding
deriving DecidableEq, Repr

/-- One actor grant of a consent provision (`consent.provision.actor[i]`). -/
structure ConsentActor where
  role : CodeableConcept
  reference : Reference
deriving DecidableEq, Repr

/-- The provision of a consent: the code reads `provision.type` and `provision.actor`. -/
structure ConsentProvision where
  type : String
  actor : List ConsentActor
deriving DecidableEq, Repr

/-- A Consent record as used by `isPractitionerRolePermitted`. -/
structure Consent where
  patient : Reference
  provision : ConsentProvision
deriving DecidableEq, Repr

/-- A Patient: `managingOrganization` is read through optional chaining (`?.`),
so it is an `Option`. -/
structure Patient where
  id : String
  managingOrganization : Option Reference
deriving DecidableEq, Repr

/-- A Device: both references are dereferenced unconditionally by the filters. -/
structure Device where
  id : String
  patient : Reference
  owner : Reference
deriving DecidableEq, Repr

/-- An Observation: `subject` and `device` references are dereferenced
unconditionally by the observation filter. -/
structure Observation where
  id : String
  subject : Reference
  device : Reference
deriving DecidableEq, Repr

/-- One practitioner identifier; `value` is compared with `===` without being
dereferenced, so its possible absence is observable and it is an `Option`. -/
structure Identifier where
  value : Option String
deriving DecidableEq, Repr

/-- A Practitioner: the identifier list is read through optional chaining. -/
structure Practitioner where
  id : String
  identifier : Option (List Identifier)
deriving DecidableEq, Repr

/-- A PractitionerRole: `practitioner.reference` and `organization.reference` are
dereferenced unconditionally by the code. -/
structure PractitionerRole where
  id : String
  practitioner : Reference
  organization : Reference
deriving DecidableEq, Repr

/-- Source lines 221-223:
`patient.managingOrganization?.reference === practitionerRole.organization.reference`.
Optional chaining yields `undefined` when `managingOrganization` is absent, and
`undefined === s` is false for the (present) organization reference string, which
`Option` equality against `some` reproduces. -/
def isPatientInPractitionerOrganization (patient : Patient) (practitionerRole : PractitionerRole) : Bool :=
  patient.managingOrganization.map Reference.reference == some practitionerRole.organization.reference

/-- Source lines 225-231: the consent evaluator. The three `some` calls of the
source become `List.any`; the conjunct order and nesting (the patient-reference
equality sits inside the second per-actor `some`) mirror the source exactly. -/
def isPractitionerRolePermitted (consents : List Consent) (practitionerRole : PractitionerRole) (device : Device) : Bool :=
  consents.any fun consent =>
    (consent.provision.actor.any fun actor =>
      actor.role.coding.any fun coding => coding.code == "GRANTEE")
    && consent.provision.type == "permit"
    && (consent.provision.actor.any fun actor =>
      jsEndsWith actor.reference.reference practitionerRole.id
      && consent.patient.reference == device.patient.reference)

/-- Source lines 42, 90, 149: `patients.filter(patient => isPatientInPractitionerOrganization(patient, practitionerRole))`. -/
def filteredPatients (patients : List Patient) (practitionerRole : PractitionerRole) : List Patient :=
  patients.filter fun patient => isPatientInPractitionerOrganization patient practitionerRole

/-- Source lines 93-94 and 150-151: a device passes if some already-filtered patient
id is a suffix of its patient reference, or its owner reference equals the role
organization reference and the consent evaluator permits it. -/
def filteredDevices (devices : List Device) (patients : List Patient) (consents : List Consent) (practitionerRole : PractitionerRole) : List Device :=
  devices.filter fun device =>
    (filteredPatients patients practitionerRole).any (fun patient => jsEndsWith device.patient.reference patient.id)
    || (device.owner.reference == practitionerRole.organization.reference
      && isPractitionerRolePermitted consents practitionerRole device)

/-- Source lines 154-155: an observation passes if some filtered patient id is a
suffix of its subject reference, or some filtered device id is a suffix of its
device reference. -/
def filteredObservations (observations : List Observation) (devices : List Device) (patients : List Patient) (consents : List Consent) (practitionerRole : PractitionerRole) : List Observation :=
  observations.filter fun observation =>
    (filteredPatients patients practitionerRole).any (fun patient => jsEndsWith observation.subject.reference patient.id)
    || (filteredDevices devices patients consents practitionerRole).any (fun device => jsEndsWith observation.device.reference device.id)

/-- The specification formulation of the consent evaluator (spec section 4.6): the
four conditions stated as independent conjuncts over the whole consent record, the
patient-reference equality not tied to any particular actor grant. -/
def consentPermittedSpec (consents : List Consent) (practitionerRole : PractitionerRole) (device : Device) : Prop :=
  ∃ consent ∈ consents,
    consent.provision.type = "permit" ∧
    (∃ actor ∈ consent.provision.actor, ∃ coding ∈ actor.role.coding, coding.code = "GRANTEE") ∧
    (∃ actor ∈ consent.provision.actor, jsEndsWith actor.reference.reference practitionerRole.id = true) ∧
    consent.patient.reference = device.patient.reference

/-- C1: for every device and practitioner role, the consent evaluator permits the
device iff some consent record satisfies all four conditions as independent
conjuncts over the whole record. Although the source nests the patient-reference
equality inside the per-actor existence check, that conjunct does not depend on
the actor being iterated, so the nesting is logically inert and the code agrees
with the independent-conjunct formulation. -/
theorem c1_consent_evaluator_independent_conjuncts
    (consents : List Consent) (practitionerRole : PractitionerRole) (device : Device) :
    isPractitionerRolePermitted consents practitionerRole device = true ↔
      consentPermittedSpec consents practitionerRole device := by
  unfold isPractitionerRolePermitted consentPermittedSpec
  simp only [List.any_eq_true, Bool.and_eq_true, beq_iff_eq]
  constructor
  · rintro ⟨c, hc, ⟨hGs, hty⟩, a2, ha2, hend, hpat⟩
    exact ⟨c, hc, hty, hGs, ⟨a2, ha2, hend⟩, hpat⟩
  · rintro ⟨c, hc, hty, hGs, ⟨a2, ha2, hend⟩, hpat⟩
    exact ⟨c, hc, ⟨hGs, hty⟩, a2, ha2, hend, hpat⟩

/-- C2: a fetched device is in `filteredDevices` iff its patient reference
suffix-matches the id of some patient in `filteredPatients`, or its owner
organization reference equals the role organization reference and the consent
evaluator permits the device; the predicate is the logical OR of the two
disjuncts. -/
theorem c2_device_or_correctness
    (devices : List Device) (patients : List Patient) (consents : List Consent)
    (practitionerRole : PractitionerRole) (device : Device) (h : device ∈ devices) :
    device ∈ filteredDevices devices patients consents practitionerRole ↔
      ((∃ patient ∈ filteredPatients patients practitionerRole,
          jsEndsWith device.patient.reference patient.id = true)
        ∨ (device.owner.reference = practitionerRole.organization.reference ∧
            isPractitionerRolePermitted consents practitionerRole device = true)) := by
  unfold filteredDevices
  rw [List.mem_filter]
  simp [List.any_eq_true, h]

/-- C3: a fetched observation is in `filteredObservations` iff its subject
reference suffix-matches a patient in `filteredPatients` or its device reference
suffix-matches a device in the already-computed `filteredDevices`. -/
theorem c3_observation_dependency
    (observations : List Observation) (devices : List Device) (patients : List Patient)
    (consents : List Consent) (practitionerRole : PractitionerRole)
    (observation : Observation) (h : observation ∈ observations) :
    observation ∈ filteredObservations observations devices patients consents practitionerRole ↔
      ((∃ patient ∈ filteredPatients patients practitionerRole,
          jsEndsWith observation.subject.reference patient.id = true)
        ∨ (∃ device ∈ filteredDevices devices patients consents practitionerRole,
            jsEndsWith observation.device.reference device.id = true)) := by
  unfold filteredObservations
  rw [List.mem_filter]
  simp [List.any_eq_true, h]

/-- C4: a fetched patient is in `filteredPatients` iff its managing-organization
reference is present and equals the role organization reference by exact string
equality. -/
theorem c4_patient_membership
    (patients : List Patient) (practitionerRole : PractitionerRole)
    (patient : Patient) (h : patient ∈ patients) :
    patient ∈ filteredPatients patients practitionerRole ↔
      (∃ orgRef : Reference, patient.managingOrganization = some orgRef ∧
        orgRef.reference = practitionerRole.organization.reference) := by
  unfold filteredPatients isPatientInPractitionerOrganization
  rw [List.mem_filter]
  simp only [h, true_and, beq_iff_eq, Option.map_eq_some']

/-- C5: no filter stage enlarges its input: every filtered patient, device and
observation was in the corresponding fetched collection. -/
theorem c5_subset_invariant
    (patients : List Patient) (devices : List Device) (observations : List Observation)
    (consents : List Consent) (practitionerRole : PractitionerRole) :
    (∀ patient ∈ filteredPatients patients practitionerRole, patient ∈ patients) ∧
    (∀ device ∈ filteredDevices devices patients consents practitionerRole, device ∈ devices) ∧
    (∀ observation ∈ filteredObservations observations devices patients consents practitionerRole,
      observation ∈ observations) :=
  ⟨fun _ h => List.mem_of_mem_filter h,
   fun _ h => List.mem_of_mem_filter h,
   fun _ h => List.mem_of_mem_filter h⟩

/-- C10: a patient whose managing-organization reference is absent is never in the
practitioner organization: the predicate is a total Boolean function (the optional
chaining of the source yields `undefined`, not a crash) that returns false for
every role, so the patient is excluded from `filteredPatients`. -/
theorem c10_absent_managing_organization
    (patients : List Patient) (practitionerRole : PractitionerRole)
    (patient : Patient) (h : patient.managingOrganization = none) :
    isPatientInPractitionerOrganization patient practitionerRole = false ∧
    patient ∉ filteredPatients patients practitionerRole := by
  have hpred : isPatientInPractitionerOrganization patient practitionerRole = false := by
    unfold isPatientInPractitionerOrganization
    rw [h]
    rfl
  refine ⟨hpred, fun hmem => ?_⟩
  have h2 := (List.mem_filter.mp hmem).2
  simp only [hpred] at h2
  cases h2

/-- Sample role bound to organization Organization/1, used by witnesses. -/
def sampleRole : PractitionerRole :=
  ⟨"R1", ⟨"Practitioner/42"⟩, ⟨"Organization/1"⟩⟩

/-- Sample patient managed by Organization/1, used by witnesses. -/
def samplePatient : Patient :=
  ⟨"P1", some ⟨"Organization/1"⟩⟩

/-- Sample device attached to the sample patient, owned outside the role
organization, used by witnesses. -/
def sampleDevice : Device :=
  ⟨"D1", ⟨"Patient/P1"⟩, ⟨"Organization/2"⟩⟩

/-- Sample observation whose subject is the sample patient, used by witnesses. -/
def sampleObservation : Observation :=
  ⟨"O1", ⟨"Patient/P1"⟩, ⟨"Device/D1"⟩⟩

/-- Witness for C2 at a concrete input: the sample device enters the filtered set
through the patient disjunct. -/
theorem c2_device_or_correctness_witness :
    sampleDevice ∈ filteredDevices [sampleDevice] [samplePatient] [] sampleRole :=
  (c2_device_or_correctness [sampleDevice] [samplePatient] [] sampleRole sampleDevice
      (by decide)).mpr
    (Or.inl ⟨samplePatient, by decide, by decide⟩)

/-- Witness for C3 at a concrete input: the sample observation enters the filtered
set through the subject disjunct. -/
theorem c3_observation_dependency_witness :
    sampleObservation ∈ filteredObservations [sampleObservation] [] [samplePatient] [] sampleRole :=
  (c3_observation_dependency [sampleObservation] [] [samplePatient] [] sampleRole
      sampleObservation (by decide)).mpr
    (Or.inl ⟨samplePatient, by decide, by decide⟩)

/-- Witness for C4 at a concrete input: the sample patient is in the filtered set
because its managing-organization reference equals the role organization
reference. -/
theorem c4_patient_membership_witness :
    samplePatient ∈ filteredPatients [samplePatient] sampleRole :=
  (c4_patient_membership [samplePatient] sampleRole samplePatient (by decide)).mpr
    ⟨⟨"Organization/1"⟩, by decide, by decide⟩

/-- Witness for C5 at a concrete input: a concrete filtered patient is indeed in
the fetched list. -/
theorem c5_subset_invariant_witness :
    samplePatient ∈ [samplePatient] :=
  (c5_subset_invariant [samplePatient] [] [] [] sampleRole).1 samplePatient (by decide)

/-- Witness for C10 at a concrete input: a patient without a managing organization
is excluded. -/
theorem c10_absent_managing_organization_witness :
    isPatientInPractitionerOrganization ⟨"P2", none⟩ sampleRole = false ∧
    (⟨"P2", none⟩ : Patient) ∉ filteredPatients [⟨"P2", none⟩] sampleRole :=
  c10_absent_managing_organization [⟨"P2", none⟩] sampleRole ⟨"P2", none⟩ rfl

/-- The selection pattern shared by source lines 203-206 and 215-218: keep the
list of candidates, demand its length be exactly one, and return the single
element, else the given error status. -/
def pickUnique (l : List α) (errStatus : Nat) : Except Nat α :=
  if h : l.length = 1 then
    Except.ok (l.get ⟨0, by omega⟩)
  else
    Except.error errStatus

theorem pickUnique_ok_iff (l : List α) (errStatus : Nat) :
    (∃ x, pickUnique l errStatus = Except.ok x) ↔ l.length = 1 := by
  unfold pickUnique
  split
  · rename_i h
    exact ⟨fun _ => h, fun _ => ⟨_, rfl⟩⟩
  · rename_i h
    refine ⟨fun hx => ?_, fun hl => absurd hl h⟩
    obtain ⟨x, hx⟩ := hx
    cases hx

theorem pickUnique_error (l : List α) (errStatus : Nat) (h : l.length ≠ 1) :
    pickUnique l errStatus = Except.error errStatus := by
  unfold pickUnique
  exact dif_neg h

theorem pickUnique_ok_mem (l : List α) (errStatus : Nat) (x : α)
    (h : pickUnique l errStatus = Except.ok x) : x ∈ l := by
  unfold pickUnique at h
  split at h
  · cases h
    exact List.get_mem _ _ _
  · cases h

/-- Source lines 209-219: filter the fetched practitioners by identifier value
equality against the decoded subject id; exactly one match is required, otherwise
status 403. The JavaScript `practitioner.identifier?.some(...)` yields `undefined`
(falsy) when the identifier list is absent, and `identifier.value === userId` is
`===` between two possibly-undefined values, modelled by `Option` equality. -/
def getUserPractitioner (practitioners : List Practitioner) (userId : Option String) :
    Except Nat Practitioner :=
  pickUnique
    (practitioners.filter fun practitioner =>
      match practitioner.identifier with
      | none => false
      | some ids => ids.any fun identifier => identifier.value == userId)
    403

/-- Source lines 197-207: filter the fetched practitioner roles by suffix match of
the practitioner reference against the canonical segment Practitioner/ + id;
exactly one match is required, otherwise status 500. -/
def getUserPractitionerRole (practitionerRoles : List PractitionerRole) (practitioner : Practitioner) :
    Except Nat PractitionerRole :=
  pickUnique
    (practitionerRoles.filter fun practitionerRole =>
      jsEndsWith practitionerRole.practitioner.reference ("Practitioner/" ++ practitioner.id))
    500

/-- C6: practitioner resolution succeeds iff exactly one fetched practitioner has
an identifier value equal to the decoded subject id, otherwise it fails with
status 403; role resolution succeeds iff exactly one fetched role suffix-matches
Practitioner/ + practitioner id, otherwise it fails with status 500. -/
theorem c6_resolution_cardinality
    (practitioners : List Practitioner) (userId : Option String)
    (practitionerRoles : List PractitionerRole) (practitioner : Practitioner) :
    ((∃ p, getUserPractitioner practitioners userId = Except.ok p) ↔
      practitioners.countP (fun practitioner =>
        match practitioner.identifier with
        | none => false
        | some ids => ids.any fun identifier => identifier.value == userId) = 1) ∧
    (practitioners.countP (fun practitioner =>
        match practitioner.identifier with
        | none => false
        | some ids => ids.any fun identifier => identifier.value == userId) ≠ 1 →
      getUserPractitioner practitioners userId = Except.error 403) ∧
    ((∃ r, getUserPractitionerRole practitionerRoles practitioner = Except.ok r) ↔
      practitionerRoles.countP (fun practitionerRole =>
        jsEndsWith practitionerRole.practitioner.reference ("Practitioner/" ++ practitioner.id)) = 1) ∧
    (practitionerRoles.countP (fun practitionerRole =>
        jsEndsWith practitionerRole.practitioner.reference ("Practitioner/" ++ practitioner.id)) ≠ 1 →
      getUserPractitionerRole practitionerRoles practitioner = Except.error 500) := by
  simp only [List.countP_eq_length_filter]
  exact ⟨pickUnique_ok_iff _ _, fun hne => pickUnique_error _ _ hne,
    pickUnique_ok_iff _ _, fun hne => pickUnique_error _ _ hne⟩

/-- Witness for C6 at concrete inputs: two practitioners matching the same subject
id yield status 403 rather than a silent pick, and two roles matching the same
practitioner yield status 500. -/
theorem c6_resolution_cardinality_witness :
    getUserPractitioner
        [⟨"42", some [⟨some ("oid-1")⟩]⟩, ⟨"43", some [⟨some ("oid-1")⟩]⟩]
        (some ("oid-1")) = Except.error 403 ∧
    getUserPractitionerRole
        [⟨"R1", ⟨"Practitioner/42"⟩, ⟨"Organization/1"⟩⟩,
         ⟨"R2", ⟨"Practitioner/42"⟩, ⟨"Organization/2"⟩⟩]
        ⟨"42", none⟩ = Except.error 500 :=
  ⟨(c6_resolution_cardinality
        [⟨"42", some [⟨some ("oid-1")⟩]⟩, ⟨"43", some [⟨some ("oid-1")⟩]⟩]
        (some ("oid-1")) [] ⟨"42", none⟩).2.1 (by decide),
   (c6_resolution_cardinality [] none
        [⟨"R1", ⟨"Practitioner/42"⟩, ⟨"Organization/1"⟩⟩,
         ⟨"R2", ⟨"Practitioner/42"⟩, ⟨"Organization/2"⟩⟩]
        ⟨"42", none⟩).2.2.2 (by decide)⟩

/-- Source lines 161-168: when the Authorization header is absent the function
returns status 401; otherwise it returns the header value and the oid claim of the
decoded token, with no error. `decodeOid` models the external jwt-decode
collaborator: the oid claim it extracts from the credential, absent when the
payload carries no usable subject id. -/
def getAuthTokenAndUserId (authorizationHeader : Option String)
    (decodeOid : String → Option String) :
    Option String × Option String × Option Nat :=
  match authorizationHeader with
  | none => (none, none, some 401)
  | some authToken => (some authToken, decodeOid authToken, none)

/-- Counterexample for C7: with the Authorization header present and a credential
whose decoded payload has no usable subject id, the function returns no error at
all (third component `none`), so the request proceeds with an undefined subject
id instead of failing with a malformed-credential error. -/
theorem c7_counterexample :
    getAuthTokenAndUserId (some ("h.p.s")) (fun _ => none) =
      (some ("h.p.s"), none, none) := rfl

/-- C7 amended: the only failure of the identity extraction is the missing-header
case (status 401); when the header is present the function never fails and simply
passes on the decoded subject id, even when that id is absent. -/
theorem c7_amended_no_malformed_credential_failure
    (decodeOid : String → Option String) (authToken : String) :
    getAuthTokenAndUserId (some authToken) decodeOid =
      (some authToken, decodeOid authToken, none) ∧
    getAuthTokenAndUserId none decodeOid = (none, none, some 401) :=
  ⟨rfl, rfl⟩

/-- A resource payload as the fetcher sees it: the code only reads the
`resourceType` tag (line 193); `id` is carried for the bundle assembly. -/
structure FhirResource where
  resourceType : String
  id : String
deriving DecidableEq, Repr

/-- One entry of the upstream collection envelope; the embedded `resource` is
optional in the wire type, and the code dereferences it without a check. -/
structure BundleEntry where
  resource : Option FhirResource
deriving DecidableEq, Repr

/-- The parsed response body (the unchecked `as Bundle` cast of line 189): the
`entry` list is optional in the wire type, and the code calls `.filter` on it
without a check. -/
structure Bundle where
  resourceType : String
  entry : Option (List BundleEntry)
deriving DecidableEq, Repr

/-- Outcome of one `getRessources` call: the resource list, the explicit
`{ status: 500 }` error object, or an unhandled JavaScript TypeError thrown while
dereferencing an absent `entry` list or an absent `resource`. -/
inductive FetchResult where
  | ok : List FhirResource → FetchResult
  | httpError : Nat → FetchResult
  | crash : FetchResult
deriving DecidableEq, Repr

/-- Source line 193, fused filter-and-extract:
`entry.filter(e => e.resource.resourceType === endpoint).map(e => e.resource)`.
The filter predicate dereferences `e.resource` on every entry, so one absent
resource anywhere in the list throws (modelled as `none`). -/
def entryResources (endpoint : String) : List BundleEntry → Option (List FhirResource)
  | [] => some []
  | e :: es =>
    match e.resource with
    | none => none
    | some r =>
      (entryResources endpoint es).map fun rest =>
        if r.resourceType == endpoint then r :: rest else rest

/-- Source lines 182-195: reject a body whose resourceType is not Bundle with
status 500, then read the entry list; dereferencing an absent entry list (line
193 on a bundle without entries) throws rather than producing the error object. -/
def getRessources (endpoint : String) (ressourceBody : Bundle) : FetchResult :=
  if ressourceBody.resourceType ≠ "Bundle" then
    FetchResult.httpError 500
  else
    match ressourceBody.entry with
    | none => FetchResult.crash
    | some entries =>
      match entryResources endpoint entries with
      | none => FetchResult.crash
      | some ressources => FetchResult.ok ressources

theorem entryResources_all_some (endpoint : String) (entries : List BundleEntry)
    (h : ∀ e ∈ entries, e.resource ≠ none) :
    entryResources endpoint entries =
      some ((entries.filterMap BundleEntry.resource).filter
        fun r => r.resourceType == endpoint) := by
  induction entries with
  | nil => rfl
  | cons e es ih =>
    cases he : e.resource with
    | none => exact absurd he (h e (by simp))
    | some r =>
      have ih2 := ih fun x hx => h x (by simp [hx])
      simp only [entryResources, he, ih2, Option.map_some', List.filterMap_cons, List.filter_cons]

/-- Counterexample for C9: a body whose resourceType is Bundle but whose entry
list is absent (as an upstream search with zero results reports) conforms to the
collection envelope, yet the fetcher neither returns the status-500 format error
nor a resource list: it crashes with an unhandled TypeError. -/
theorem c9_counterexample :
    getRessources ("Patient") ⟨"Bundle", none⟩ = FetchResult.crash ∧
    (⟨"Bundle", none⟩ : Bundle).resourceType = "Bundle" := by
  exact ⟨rfl, rfl⟩

/-- C9 amended: the fetcher returns the status-500 format error exactly when the
body resourceType is not Bundle; on a Bundle body with an entry list present and
every entry carrying a resource it returns exactly the resources whose tag equals
the requested kind, discarding mismatched entries without failing; on a Bundle
body without an entry list it crashes instead of producing the format error. -/
theorem c9_amended_fetcher (endpoint : String) (ressourceBody : Bundle) :
    (getRessources endpoint ressourceBody = FetchResult.httpError 500 ↔
      ressourceBody.resourceType ≠ "Bundle") ∧
    (ressourceBody.resourceType = "Bundle" → ressourceBody.entry = none →
      getRessources endpoint ressourceBody = FetchResult.crash) ∧
    (∀ entries, ressourceBody.resourceType = "Bundle" →
      ressourceBody.entry = some entries →
      (∀ e ∈ entries, e.resource ≠ none) →
      getRessources endpoint ressourceBody =
        FetchResult.ok ((entries.filterMap BundleEntry.resource).filter
          fun r => r.resourceType == endpoint)) := by
  refine ⟨?_, ?_, ?_⟩
  · unfold getRessources
    by_cases hb : ressourceBody.resourceType = "Bundle"
    · simp only [hb, ne_eq, not_true_eq_false, if_false]
      cases he : ressourceBody.entry with
      | none => simp
      | some es => cases her : entryResources endpoint es <;> simp [her]
    · simp [hb]
  · intro hb hnone
    unfold getRessources
    simp [hb, hnone]
  · intro entries hb hes hall
    unfold getRessources
    simp [hb, hes, entryResources_all_some endpoint entries hall]

/-- Witness for C9 amended at a concrete input: a Bundle body holding one Patient
entry and one Device entry yields exactly the Patient resource when the Patient
kind is requested. -/
theorem c9_amended_fetcher_witness :
    getRessources ("Patient")
        ⟨"Bundle", some [⟨some ⟨"Patient", "P1"⟩⟩, ⟨some ⟨"Device", "D1"⟩⟩]⟩ =
      FetchResult.ok [⟨"Patient", "P1"⟩] :=
  ((c9_amended_fetcher ("Patient")
        ⟨"Bundle", some [⟨some ⟨"Patient", "P1"⟩⟩, ⟨some ⟨"Device", "D1"⟩⟩]⟩).2.2
      [⟨some ⟨"Patient", "P1"⟩⟩, ⟨some ⟨"Device", "D1"⟩⟩] rfl rfl (by decide)).trans
    (by decide)

theorem jsEndsWith_append (s a b : String) (h : jsEndsWith s (a ++ b) = true) :
    jsEndsWith s b = true := by
  unfold jsEndsWith at h ⊢
  rw [List.isSuffixOf_iff_suffix] at h ⊢
  rw [String.data_append] at h
  exact (List.suffix_append a.data b.data).trans h

/-- The consent evaluator as the claim describes its actor comparison: the actor
reference tested by suffix against the canonical segment PractitionerRole/ + role
id, everything else as in the source. Defined for comparison with
`isPractitionerRolePermitted`, whose source (line 229) tests the bare role id. -/
def consentPermittedCanonicalActor (consents : List Consent) (practitionerRole : PractitionerRole) (device : Device) : Bool :=
  consents.any fun consent =>
    (consent.provision.actor.any fun actor =>
      actor.role.coding.any fun coding => coding.code == "GRANTEE")
    && consent.provision.type == "permit"
    && (consent.provision.actor.any fun actor =>
      jsEndsWith actor.reference.reference ("PractitionerRole/" ++ practitionerRole.id)
      && consent.patient.reference == device.patient.reference)

/-- Counterexample for C8: the consent evaluator accepts an actor reference that
merely ends with the role id (role id 1 against PractitionerRole/11) where the
claimed canonical form PractitionerRole/ + role id does not match; likewise the
device filter admits a device whose patient reference Patient/P11 merely ends in
the filtered patient id 11, though it does not end with the canonical segment
Patient/11. -/
theorem c8_counterexample :
    isPractitionerRolePermitted
        [⟨⟨"Patient/X"⟩, ⟨"permit", [⟨⟨[⟨"GRANTEE"⟩]⟩, ⟨"PractitionerRole/11"⟩⟩]⟩⟩]
        ⟨"1", ⟨"Practitioner/42"⟩, ⟨"Organization/1"⟩⟩
        ⟨"D1", ⟨"Patient/X"⟩, ⟨"Organization/1"⟩⟩ = true ∧
    consentPermittedCanonicalActor
        [⟨⟨"Patient/X"⟩, ⟨"permit", [⟨⟨[⟨"GRANTEE"⟩]⟩, ⟨"PractitionerRole/11"⟩⟩]⟩⟩]
        ⟨"1", ⟨"Practitioner/42"⟩, ⟨"Organization/1"⟩⟩
        ⟨"D1", ⟨"Patient/X"⟩, ⟨"Organization/1"⟩⟩ = false ∧
    (⟨"D2", ⟨"Patient/P11"⟩, ⟨"Organization/2"⟩⟩ : Device) ∈
      filteredDevices [⟨"D2", ⟨"Patient/P11"⟩, ⟨"Organization/2"⟩⟩]
        [⟨"11", some ⟨"Organization/1"⟩⟩] []
        ⟨"1", ⟨"Practitioner/42"⟩, ⟨"Organization/1"⟩⟩ ∧
    jsEndsWith ("Patient/P11") ("Patient/" ++ "11") = false := by
  exact ⟨rfl, rfl, by decide, by decide⟩

/-- C8 amended: only role resolution compares by suffix against a canonical
Kind/id segment (Practitioner/ + practitioner id); the consent actor-reference
and the device patient-reference sites compare by suffix against the bare id,
which is strictly coarser (every canonical match also bare-matches, the
counterexample shows the converse fails); organization-reference comparisons use
exact string equality. -/
theorem c8_amended_comparison_modes
    (practitionerRoles : List PractitionerRole) (practitioner : Practitioner)
    (practitionerRole : PractitionerRole)
    (consents : List Consent) (device : Device)
    (devices : List Device) (patients : List Patient) (patient : Patient)
    (patientId orgRefStr : String) :
    (getUserPractitionerRole practitionerRoles practitioner = Except.ok practitionerRole →
      jsEndsWith practitionerRole.practitioner.reference
        ("Practitioner/" ++ practitioner.id) = true) ∧
    (consentPermittedCanonicalActor consents practitionerRole device = true →
      isPractitionerRolePermitted consents practitionerRole device = true) ∧
    (device ∈ devices → patient ∈ filteredPatients patients practitionerRole →
      jsEndsWith device.patient.reference ("Patient/" ++ patient.id) = true →
      device ∈ filteredDevices devices patients consents practitionerRole) ∧
    (isPatientInPractitionerOrganization ⟨patientId, some ⟨orgRefStr⟩⟩ practitionerRole =
      (orgRefStr == practitionerRole.organization.reference)) := by
  refine ⟨?_, ?_, ?_, ?_⟩
  · intro hok
    have hmem := pickUnique_ok_mem _ _ _ hok
    exact (List.mem_filter.mp hmem).2
  · intro h
    simp only [consentPermittedCanonicalActor, isPractitionerRolePermitted,
      List.any_eq_true, Bool.and_eq_true] at h ⊢
    obtain ⟨c, hc, ⟨hGs, hty⟩, a2, ha2, hend, hpat⟩ := h
    exact ⟨c, hc, ⟨hGs, hty⟩, a2, ha2, jsEndsWith_append _ _ _ hend, hpat⟩
  · intro hdev hpat hsuf
    unfold filteredDevices
    rw [List.mem_filter]
    refine ⟨hdev, ?_⟩
    rw [Bool.or_eq_true, List.any_eq_true]
    exact Or.inl ⟨patient, hpat, jsEndsWith_append _ _ _ hsuf⟩
  · rfl

/-- Witness for C8 amended at a concrete input: a canonical actor reference
PractitionerRole/1 for role id 1 is accepted by the source evaluator. -/
theorem c8_amended_comparison_modes_witness :
    isPractitionerRolePermitted
        [⟨⟨"Patient/X"⟩, ⟨"permit", [⟨⟨[⟨"GRANTEE"⟩]⟩, ⟨"PractitionerRole/1"⟩⟩]⟩⟩]
        ⟨"1", ⟨"Practitioner/42"⟩, ⟨"Organization/1"⟩⟩
        ⟨"D1", ⟨"Patient/X"⟩, ⟨"Organization/1"⟩⟩ = true :=
  (c8_amended_comparison_modes [] ⟨"42", none⟩
      ⟨"1", ⟨"Practitioner/42"⟩, ⟨"Organization/1"⟩⟩
      [⟨⟨"Patient/X"⟩, ⟨"permit", [⟨⟨[⟨"GRANTEE"⟩]⟩, ⟨"PractitionerRole/1"⟩⟩]⟩⟩]
      ⟨"D1", ⟨"Patient/X"⟩, ⟨"Organization/1"⟩⟩
      [] [] ⟨"P", none⟩ ("P") ("Organization/1")).2.1 (by decide)

end CustomOperations

